import Mathlib

/-!
Verification of the per-call media-bridge state machine of this repository.

The source of truth is "scripts/next-ws-server.ts" (first, current draft in
the file): the factory "createRealtimeSession" returns a per-call session
closure over the mutable variables "open", "hasAudioInBuffer" and
"silenceTimer", with operations "commitNow", "scheduleCommit", "sendAudio"
and "close", plus the WebSocket connection handler (the gateway) that parses
inbound Twilio frames and routes them.

The barge-in patch is "src/unnamed/part_001": a codemod that inserts
"isInterrupted" / "lastResponseId" tracking, a "response.cancel" on caller
speech start, and a guard of the audio-delta forwarding branch, into a base
ws-server file that is not itself present in the sources.  Where the base
file is missing, the corresponding definition is modelled from the spec and
says so in its doc comment.

Mutable state becomes explicit record-passing; each operation returns the new
state together with the list of messages it sent, in order.  The JS timer
handle "silenceTimer" is modelled by the deadline (in ms) of the single
scheduled callback; "clearTimeout before setTimeout" in "scheduleCommit"
makes the field a replacement, never an accumulation.  Wall-clock time is an
explicit natural-number parameter.
-/

namespace NextWS

/-- Upstream protocol messages sent over the realtime socket "rt", in the
order "rt.send" is called.  "sessionUpdate" is the session.update
configuration, "itemCreate" the greeting conversation.item.create,
"responseCreate" a response.create request, "append b" an
input_audio_buffer.append carrying base64 audio, "commitMsg" an
input_audio_buffer.commit. -/
inductive UpMsg where
  | sessionUpdate : UpMsg
  | itemCreate : UpMsg
  | responseCreate : UpMsg
  | append : String → UpMsg
  | commitMsg : UpMsg
deriving DecidableEq, Repr

/-- Per-call session state of createRealtimeSession: the closure variables
"let open = false; let hasAudioInBuffer = false; let silenceTimer = null"
plus a flag recording that "rt.close()" has been requested (the ws close()
method is a no-op on a socket that is already CLOSING or CLOSED). -/
structure RTState where
  isOpen : Bool
  hasAudioInBuffer : Bool
  silenceTimer : Option Nat
  closeRequested : Bool
deriving DecidableEq, Repr

/-- Session state right after "new WebSocket(...)": the socket is still
CONNECTING, nothing buffered, no timer. -/
def initRT : RTState :=
  { isOpen := false, hasAudioInBuffer := false, silenceTimer := none,
    closeRequested := false }

/-- commitNow from scripts/next-ws-server.ts:
"if (!open || !hasAudioInBuffer) return; hasAudioInBuffer = false;
rt.send(input_audio_buffer.commit); rt.send(response.create)". -/
def commitNow (s : RTState) : RTState × List UpMsg :=
  if s.isOpen && s.hasAudioInBuffer then
    ({ s with hasAudioInBuffer := false }, [UpMsg.commitMsg, UpMsg.responseCreate])
  else
    (s, [])

/-- scheduleCommit from scripts/next-ws-server.ts:
"if (silenceTimer) clearTimeout(silenceTimer);
silenceTimer = setTimeout(commitNow, 300)" — the previously scheduled
callback (if any) is cancelled and a single new one is registered for
300 ms from now. -/
def scheduleCommit (s : RTState) (now : Nat) : RTState :=
  { s with silenceTimer := some (now + 300) }

/-- sendAudio from scripts/next-ws-server.ts:
"if (!open) return;
rt.send(input_audio_buffer.append, audio pay); hasAudioInBuffer = true;
scheduleCommit()". -/
def sendAudio (s : RTState) (now : Nat) (b64 : String) : RTState × List UpMsg :=
  if s.isOpen then
    (scheduleCommit { s with hasAudioInBuffer := true } now, [UpMsg.append b64])
  else
    (s, [])

/-- close from scripts/next-ws-server.ts:
"close: async () => { try { commitNow(); rt.close(); } catch {} }".
It flushes a pending commit and requests the socket close; it does not touch
silenceTimer.  rt.close() on an already closing socket does nothing. -/
def close (s : RTState) : RTState × List UpMsg :=
  let r := commitNow s
  ({ r.1 with closeRequested := true }, r.2)

/-- External events a live session reacts to: the realtime socket open and
close events ("rt.on(open)", "rt.on(close)"), an inbound caller media chunk
routed to sendAudio, and an invocation of close(). -/
inductive Input where
  | rtOpen : Input
  | rtClose : Input
  | media : String → Input
  | closeCall : Input
deriving DecidableEq, Repr

/-- One reaction to an input event.  rt.on(open) sets "open = true" and sends
the session.update configuration, the greeting item and a response.create;
rt.on(close) sets "open = false"; a media chunk goes through sendAudio;
closeCall runs close(). -/
def stepInput (s : RTState) (now : Nat) : Input → RTState × List UpMsg
  | Input.rtOpen =>
      ({ s with isOpen := true },
       [UpMsg.sessionUpdate, UpMsg.itemCreate, UpMsg.responseCreate])
  | Input.rtClose => ({ s with isOpen := false }, [])
  | Input.media b64 => sendAudio s now b64
  | Input.closeCall => close s

/-- Timer delivery: before the event loop runs a callback scheduled for time
now, any pending debounce callback whose deadline is strictly earlier fires
first, running commitNow (the timer is one-shot, so it is cleared). -/
def fireDue (s : RTState) (now : Nat) : RTState × List UpMsg :=
  match s.silenceTimer with
  | some d =>
      if d < now then commitNow { s with silenceTimer := none } else (s, [])
  | none => (s, [])

/-- Run a session over a time-stamped event list (times nondecreasing):
before each event, due timers fire; then the event is processed. -/
def runAux (s : RTState) : List (Nat × Input) → RTState × List UpMsg
  | [] => (s, [])
  | (t, i) :: rest =>
      let r1 := fireDue s t
      let r2 := stepInput r1.1 t i
      let r3 := runAux r2.1 rest
      (r3.1, r1.2 ++ r2.2 ++ r3.2)

/-- After the last external event, a still-pending debounce callback
eventually fires. -/
def finalFlush (s : RTState) : RTState × List UpMsg :=
  match s.silenceTimer with
  | some _ => commitNow { s with silenceTimer := none }
  | none => (s, [])

/-- Full run: process all events, then let the remaining timer (if any)
fire. -/
def run (s : RTState) (evs : List (Nat × Input)) : RTState × List UpMsg :=
  let r := runAux s evs
  let f := finalFlush r.1
  (f.1, r.2 ++ f.2)

/-- Number of input_audio_buffer.commit messages in an upstream trace. -/
def commitCount (l : List UpMsg) : Nat :=
  l.countP (fun m => match m with | UpMsg.commitMsg => true | _ => false)

/-- Number of input_audio_buffer.append messages in an upstream trace. -/
def appendCount (l : List UpMsg) : Nat :=
  l.countP (fun m => match m with | UpMsg.append _ => true | _ => false)

/-- A burst of caller media frames as timed session inputs. -/
def burst (frames : List (Nat × String)) : List (Nat × Input) :=
  frames.map (fun p => (p.1, Input.media p.2))

/-- Consecutive frames each arrive within the 300 ms debounce window of the
previous one (times nondecreasing). -/
def chained (prev : Nat) : List (Nat × String) → Prop
  | [] => True
  | (t, _) :: rest => prev ≤ t ∧ t ≤ prev + 300 ∧ chained t rest

/-- Consecutive frames are separated by gaps strictly exceeding the 300 ms
debounce window. -/
def separated (prev : Nat) : List (Nat × String) → Prop
  | [] => True
  | (t, _) :: rest => prev + 300 < t ∧ separated t rest

end NextWS

namespace NextWS

/-!
Gateway: the "wss.on(connection, ...)" handler of scripts/next-ws-server.ts.
Per-connection mutable state is "let session = null; let streamSid = null";
each inbound WebSocket message is JSON-parsed and dispatched on its "event"
field.  A message whose payload fails JSON.parse is modelled by the
"malformed" constructor.
-/

/-- Inbound Twilio frames after JSON parsing, tagged by the "event" field.
Any event value other than the listed ones is "unknownEvt". -/
inductive TFrame where
  | start : String → String → TFrame
  | media : String → TFrame
  | mark : String → TFrame
  | stop : String → TFrame
  | connected : TFrame
  | dtmf : TFrame
  | unknownEvt : String → TFrame
deriving DecidableEq, Repr

/-- A raw inbound WebSocket message: either JSON that parsed to a frame, or a
payload JSON.parse throws on. -/
inductive Raw where
  | malformed : Raw
  | frame : TFrame → Raw
deriving DecidableEq, Repr

/-- Observable actions of the gateway handler: a console.warn, a
console.log, an upstream protocol message (via the session), and
"ws.close(1000, done)" on the Twilio leg. -/
inductive GAct where
  | warnLog : GAct
  | infoLog : GAct
  | up : UpMsg → GAct
  | wsClose : GAct
deriving DecidableEq, Repr

/-- Per-connection gateway state: "let session = null; let streamSid =
null". -/
structure GWState where
  session : Option RTState
  streamSid : Option String
deriving DecidableEq, Repr

/-- State of a freshly accepted connection. -/
def initGW : GWState := { session := none, streamSid := none }

/-- createRealtimeSession up to the point the upstream WebSocket exists:
"if (!process.env.OPENAI_API_KEY) throw new Error(OPENAI_API_KEY missing)"
runs before "new WebSocket(...)", so with the credential absent the function
throws without initiating any upstream connection; otherwise the socket is
constructed (still CONNECTING) and the session closure is returned. -/
def createRealtimeSession (hasKey : Bool) : Except String RTState :=
  if hasKey then Except.ok initRT else Except.error "OPENAI_API_KEY missing"

/-- The ws.on(message) handler: JSON.parse failure is caught, warned about
and dropped; otherwise the frame is dispatched on msg.event.  An
Except.error result models an exception escaping the handler (the "start"
case awaits createRealtimeSession with no try/catch around it). -/
def handleRaw (hasKey : Bool) (s : GWState) (now : Nat) : Raw → Except String (GWState × List GAct)
  | Raw.malformed => Except.ok (s, [GAct.warnLog])
  | Raw.frame f =>
    match f with
    | TFrame.start _ sid =>
        match createRealtimeSession hasKey with
        | Except.error e => Except.error e
        | Except.ok rt =>
            Except.ok ({ s with streamSid := some sid, session := some rt },
                       [GAct.infoLog])
    | TFrame.media payload =>
        match s.session with
        | none => Except.ok (s, [])
        | some rt =>
            let r := sendAudio rt now payload
            Except.ok ({ s with session := some r.1 }, r.2.map GAct.up)
    | TFrame.mark _ => Except.ok (s, [])
    | TFrame.stop _ =>
        match s.session with
        | none => Except.ok ({ s with session := none }, [GAct.infoLog, GAct.wsClose])
        | some rt =>
            let r := close rt
            Except.ok ({ s with session := none },
                       GAct.infoLog :: (r.2.map GAct.up ++ [GAct.wsClose]))
    | TFrame.connected => Except.ok (s, [])
    | TFrame.dtmf => Except.ok (s, [])
    | TFrame.unknownEvt _ => Except.ok (s, [GAct.infoLog])

/-- Result of running a gateway connection over a message sequence: normal
completion with the accumulated actions, or a crash (uncaught exception)
after the actions emitted so far. -/
inductive GWRes where
  | ok : GWState → List GAct → GWRes
  | crash : String → List GAct → GWRes
deriving DecidableEq, Repr

/-- Prepend already-emitted actions to a run result. -/
def GWRes.withActs (pre : List GAct) : GWRes → GWRes
  | GWRes.ok s acts => GWRes.ok s (pre ++ acts)
  | GWRes.crash e acts => GWRes.crash e (pre ++ acts)

/-- Process a sequence of time-stamped inbound messages on one gateway
connection. -/
def runGW (hasKey : Bool) (s : GWState) : List (Nat × Raw) → GWRes
  | [] => GWRes.ok s []
  | (t, r) :: rest =>
      match handleRaw hasKey s t r with
      | Except.error e => GWRes.crash e []
      | Except.ok (s1, acts) => GWRes.withActs acts (runGW hasKey s1 rest)

end NextWS

namespace NextWS

/-!
Barge-in handler, from the codemod src/unnamed/part_001.  The patch inserts,
into the upstream-message handler of a base ws-server file not present in
the sources:
 - on "response.created": "lastResponseId = evt.response?.id ?? evt.id ??
   null; isInterrupted = false";
 - at the top of the audio-delta forwarding branch: "if (isInterrupted)
   return;";
 - at the top of "handleSpeechStartedEvent": "isInterrupted = true;
   if (lastResponseId) session?.socket.send({ type: response.cancel,
   response_id: lastResponseId })", ahead of the existing body, which the
   patch states ends in truncate/clear and which (per the spec) emits the
   flush/clear control frame "{ event: clear, streamSid }" to the caller
   leg.
Definitions below that depend on that missing base body are modelled from
the spec and say so.
-/

/-- Barge-in closure variables added by the patch, plus the streamSid of the
call (used by the forwarding branch "if (streamSid && ...)"). -/
structure BargeState where
  isInterrupted : Bool
  lastResponseId : Option String
  streamSid : Option String
deriving DecidableEq, Repr

/-- Tagged upstream events consumed by the barge-in handler: a
response.created carrying an optional response id, a response.audio.delta
carrying its response id and base64 chunk, the caller speech-started signal,
and anything else. -/
inductive UpEvt where
  | responseCreated : Option String → UpEvt
  | audioDelta : Option String → String → UpEvt
  | speechStarted : UpEvt
  | otherEvt : String → UpEvt
deriving DecidableEq, Repr

/-- Observable actions of the barge-in handler: an upstream response.cancel
carrying a response id, the caller-leg flush frame "{ event: clear,
streamSid }", and a forwarded caller-leg media frame "{ event: media,
streamSid, media: { payload } }". -/
inductive BAct where
  | cancelMsg : String → BAct
  | clearFrame : String → BAct
  | mediaFrame : String → String → BAct
deriving DecidableEq, Repr

/-- Upstream-message handler with the part_001 patch applied.
responseCreated and the isInterrupted guard are the patch verbatim.
Modelled from the spec: the missing base delta branch forwards an
audio-delta to the gateway as an outbound media frame only for the current
responseId and only when streamSid is set; the missing base body of
handleSpeechStartedEvent emits the flush/clear control frame to the caller
leg (after the patch-inserted prefix, which runs first). -/
def handleUpEvt (s : BargeState) : UpEvt → BargeState × List BAct
  | UpEvt.responseCreated rid =>
      ({ s with lastResponseId := rid, isInterrupted := false }, [])
  | UpEvt.audioDelta rid delta =>
      match s.streamSid with
      | none => (s, [])
      | some sid =>
          if s.isInterrupted then (s, [])
          else
            match rid, s.lastResponseId with
            | some r, some r2 =>
                if r = r2 then (s, [BAct.mediaFrame sid delta]) else (s, [])
            | _, _ => (s, [])
  | UpEvt.speechStarted =>
      let cancelActs : List BAct :=
        match s.lastResponseId with
        | some r => [BAct.cancelMsg r]
        | none => []
      let clearActs : List BAct :=
        match s.streamSid with
        | some sid => [BAct.clearFrame sid]
        | none => []
      ({ s with isInterrupted := true }, cancelActs ++ clearActs)
  | UpEvt.otherEvt _ => (s, [])

/-- Process a sequence of upstream events through the barge-in handler. -/
def runBarge (s : BargeState) : List UpEvt → BargeState × List BAct
  | [] => (s, [])
  | e :: rest =>
      let r1 := handleUpEvt s e
      let r2 := runBarge r1.1 rest
      (r2.1, r1.2 ++ r2.2)

/-- Number of caller-leg media frames in a barge-in action trace. -/
def mediaCount (l : List BAct) : Nat :=
  l.countP (fun a => match a with | BAct.mediaFrame _ _ => true | _ => false)

/-- Event constraint used to speak about deltas of one fixed response id r:
every audio-delta in the trace is for r, and every response.created carries
a different id (response ids are unique per the upstream protocol, so a
finished response is never re-created). -/
def okEvt (r : String) : UpEvt → Prop
  | UpEvt.audioDelta rid _ => rid = some r
  | UpEvt.responseCreated rid => rid ≠ some r
  | _ => True

end NextWS

namespace NextWS

/-- C10: appendAudio called while the upstream socket is not open (before
its open event, or after close) is a complete no-op: sendAudio returns the
state unchanged — no input_audio_buffer.append is sent, hasPendingAudio
keeps its value (false throughout the pre-open window) and the debounce
timer is not rescheduled, so the chunk is discarded and can never by itself
produce a commit. -/
theorem claim10_confirmed (s : RTState) (now : Nat) (b : String)
    (h : s.isOpen = false) : sendAudio s now b = (s, []) := by
  simp [sendAudio, h]

/-- Witness for C10 at the freshly created session state. -/
theorem claim10_witness :
    initRT.isOpen = false ∧ sendAudio initRT 5 "zz" = (initRT, []) :=
  ⟨rfl, claim10_confirmed initRT 5 "zz" rfl⟩

/-- C7: a malformed (non-JSON) inbound payload is logged with a warning and
dropped: the gateway state is unchanged and no ws.close action is emitted,
and a run that starts with the malformed message continues exactly like the
run without it (subsequent frames are unaffected). -/
theorem claim7_confirmed :
    (∀ (hasKey : Bool) (s : GWState) (now : Nat),
        handleRaw hasKey s now Raw.malformed = Except.ok (s, [GAct.warnLog])) ∧
    (∀ (hasKey : Bool) (s : GWState) (now : Nat) (rest : List (Nat × Raw)),
        runGW hasKey s ((now, Raw.malformed) :: rest) =
          GWRes.withActs [GAct.warnLog] (runGW hasKey s rest)) := by
  constructor
  · intro hasKey s now
    rfl
  · intro hasKey s now rest
    rfl

/-- C4: on a response.created event the barge-in handler records the new
responseId and clears the interrupted flag, so a subsequent audio delta of
that new response is forwarded to the caller even if a prior response had
been interrupted. -/
theorem claim4_confirmed :
    (∀ (s : BargeState) (rid : Option String),
        handleUpEvt s (UpEvt.responseCreated rid) =
          ({ s with lastResponseId := rid, isInterrupted := false }, [])) ∧
    (∀ (s : BargeState) (r sid d : String), s.streamSid = some sid →
        handleUpEvt (handleUpEvt s (UpEvt.responseCreated (some r))).1
            (UpEvt.audioDelta (some r) d) =
          ((handleUpEvt s (UpEvt.responseCreated (some r))).1,
           [BAct.mediaFrame sid d])) := by
  constructor
  · intro s rid
    rfl
  · intro s r sid d h
    simp [handleUpEvt, h]

/-- Witness for C4: a session interrupted during response r0 resumes
forwarding deltas once response r1 is created. -/
theorem claim4_witness :
    handleUpEvt
        (handleUpEvt ⟨true, some "r0", some "MZ1"⟩
          (UpEvt.responseCreated (some "r1"))).1
        (UpEvt.audioDelta (some "r1") "dd") =
      ((handleUpEvt ⟨true, some "r0", some "MZ1"⟩
          (UpEvt.responseCreated (some "r1"))).1,
       [BAct.mediaFrame "MZ1" "dd"]) :=
  claim4_confirmed.2 ⟨true, some "r0", some "MZ1"⟩ "r1" "MZ1" "dd" rfl

/-- C2 counterexample: with response r1 in flight on stream MZ1, the
caller-speech-started signal produces the action list
[response.cancel r1, clear MZ1] — the flush/clear frame is emitted at index
1, strictly AFTER the cancel request at index 0 (the patch inserts the
cancel ahead of the pre-existing truncate/clear body).  This refutes the
clause that the flush/clear frame is emitted at or before the cancel
request. -/
theorem claim2_counterexample :
    handleUpEvt ⟨false, some "r1", some "MZ1"⟩ UpEvt.speechStarted =
      (⟨true, some "r1", some "MZ1"⟩,
       [BAct.cancelMsg "r1", BAct.clearFrame "MZ1"]) := by
  rfl

/-- The patched audio-delta branch never mutates the barge-in state: every
branch returns the state unchanged (it only decides whether to forward). -/
lemma audioDelta_state_eq (s : BargeState) (rid : Option String) (d : String) :
    (handleUpEvt s (UpEvt.audioDelta rid d)).1 = s := by
  cases hs : s.streamSid with
  | none => simp [handleUpEvt, hs]
  | some sid =>
      cases hint : s.isInterrupted with
      | true => simp [handleUpEvt, hs, hint]
      | false =>
          cases rid with
          | none => simp [handleUpEvt, hs, hint]
          | some r =>
              cases hl : s.lastResponseId with
              | none => simp [handleUpEvt, hs, hint, hl]
              | some r2 =>
                  by_cases hrr : r = r2 <;> simp [handleUpEvt, hs, hint, hl, hrr]

/-- C2 amended: once caller speech starts, the interrupted flag is set
immediately (synchronously, without upstream acknowledgement); while
interrupted, an audio-delta event produces no output at all; if a non-null
responseId is recorded, the upstream cancel carrying it is sent and the
flush/clear frame follows it (immediately AFTER the cancel, not at or
before); and along any subsequent event sequence in which every delta is
for response r and no response.created re-creates r, no media frame is
forwarded to the caller. -/
theorem claim2_amended :
    (∀ s : BargeState, (handleUpEvt s UpEvt.speechStarted).1.isInterrupted = true) ∧
    (∀ (s : BargeState) (rid : Option String) (d : String),
        s.isInterrupted = true →
        handleUpEvt s (UpEvt.audioDelta rid d) = (s, [])) ∧
    (∀ (s : BargeState) (r sid : String),
        s.lastResponseId = some r → s.streamSid = some sid →
        (handleUpEvt s UpEvt.speechStarted).2 =
          [BAct.cancelMsg r, BAct.clearFrame sid]) ∧
    (∀ (r : String) (evs : List UpEvt) (s : BargeState),
        (s.isInterrupted = true ∨ s.lastResponseId ≠ some r) →
        (∀ e ∈ evs, okEvt r e) →
        mediaCount (runBarge s evs).2 = 0) := by
  refine ⟨?_, ?_, ?_, ?_⟩
  · intro s
    cases h : s.streamSid <;> simp [handleUpEvt]
  · intro s rid d h
    cases hs : s.streamSid <;> simp [handleUpEvt, hs, h]
  · intro s r sid h1 h2
    simp [handleUpEvt, h1, h2]
  · intro r evs
    induction evs with
    | nil =>
        intro s _ _
        simp [runBarge, mediaCount]
    | cons e rest ih =>
        intro s hinv hok
        have hokE : okEvt r e := hok e (List.mem_cons_self e rest)
        have hokR : ∀ x ∈ rest, okEvt r x := fun x hx => hok x (List.mem_cons_of_mem e hx)
        show mediaCount ((handleUpEvt s e).2 ++ (runBarge (handleUpEvt s e).1 rest).2) = 0
        rw [mediaCount, List.countP_append]
        have hstep : mediaCount (handleUpEvt s e).2 = 0 ∧
            ((handleUpEvt s e).1.isInterrupted = true ∨
             (handleUpEvt s e).1.lastResponseId ≠ some r) := by
          cases e with
          | responseCreated rid =>
              refine ⟨rfl, Or.inr ?_⟩
              simpa [handleUpEvt] using hokE
          | audioDelta rid d =>
              have hr : rid = some r := hokE
              constructor
              · subst hr
                cases hs : s.streamSid with
                | none => simp [handleUpEvt, hs, mediaCount]
                | some sid =>
                    cases hint : s.isInterrupted with
                    | true => simp [handleUpEvt, hs, hint, mediaCount]
                    | false =>
                        have hne : s.lastResponseId ≠ some r := by
                          rcases hinv with h | h
                          · rw [hint] at h; exact absurd h (by simp)
                          · exact h
                        cases hl : s.lastResponseId with
                        | none => simp [handleUpEvt, hs, hint, hl, mediaCount]
                        | some r2 =>
                            have hrr : ¬ (r = r2) := fun hrr => hne (by rw [hl, hrr])
                            simp [handleUpEvt, hs, hint, hl, hrr, mediaCount]
              · rw [audioDelta_state_eq]
                exact hinv
          | speechStarted =>
              refine ⟨?_, Or.inl (by simp [handleUpEvt])⟩
              cases hl : s.lastResponseId <;> cases hs : s.streamSid <;>
                simp [handleUpEvt, hl, hs, mediaCount]
          | otherEvt t =>
              exact ⟨rfl, by simpa [handleUpEvt] using hinv⟩
        have hrest := ih (handleUpEvt s e).1 hstep.2 hokR
        have h1 := hstep.1
        simp only [mediaCount] at h1 hrest ⊢
        omega

/-- Witness for C2 amended, at a state with response r1 in flight on stream
MZ1 and a subsequent trace of deltas for r1 only. -/
theorem claim2_witness :
    (handleUpEvt ⟨false, some "r1", some "MZ1"⟩ UpEvt.speechStarted).1.isInterrupted = true ∧
    handleUpEvt ⟨true, some "r1", some "MZ1"⟩ (UpEvt.audioDelta (some "r1") "dd") =
      (⟨true, some "r1", some "MZ1"⟩, []) ∧
    (handleUpEvt ⟨false, some "r1", some "MZ1"⟩ UpEvt.speechStarted).2 =
      [BAct.cancelMsg "r1", BAct.clearFrame "MZ1"] ∧
    mediaCount (runBarge ⟨true, some "r1", some "MZ1"⟩
      [UpEvt.audioDelta (some "r1") "d1",
       UpEvt.responseCreated (some "r2"),
       UpEvt.audioDelta (some "r1") "d2"]).2 = 0 :=
  ⟨claim2_amended.1 ⟨false, some "r1", some "MZ1"⟩,
   claim2_amended.2.1 ⟨true, some "r1", some "MZ1"⟩ (some "r1") "dd" rfl,
   claim2_amended.2.2.1 ⟨false, some "r1", some "MZ1"⟩ "r1" "MZ1" rfl rfl,
   claim2_amended.2.2.2 "r1"
     [UpEvt.audioDelta (some "r1") "d1",
      UpEvt.responseCreated (some "r2"),
      UpEvt.audioDelta (some "r1") "d2"]
     ⟨true, some "r1", some "MZ1"⟩ (Or.inl rfl)
     (by intro e he; fin_cases he <;> simp [okEvt])⟩

end NextWS

namespace NextWS

/-- C9 counterexample: on a fresh connection (no start frame processed yet)
a media frame is dropped with NO warning (empty action list, not even a
log), and a stop frame is not merely dropped: it emits a log and a
ws.close action, closing the gateway connection — a state transition.  Both
refute the claim that every non-start frame before start is dropped with a
warning and causes no state transition. -/
theorem claim9_counterexample :
    handleRaw true initGW 0 (Raw.frame (TFrame.media "pp")) =
      Except.ok (initGW, []) ∧
    handleRaw true initGW 0 (Raw.frame (TFrame.stop "MZ1")) =
      Except.ok (initGW, [GAct.infoLog, GAct.wsClose]) :=
  ⟨rfl, rfl⟩

/-- C9 amended: before a start frame has been processed (session is null),
media and mark frames are silently ignored — no upstream message, no state
change and no warning; connected and dtmf frames likewise; an
unknown event value is logged; a stop frame, however, logs and closes the
gateway connection (still sending nothing upstream, since no session
exists). -/
theorem claim9_amended :
    (∀ (hasKey : Bool) (s : GWState) (now : Nat) (p : String),
        s.session = none →
        handleRaw hasKey s now (Raw.frame (TFrame.media p)) = Except.ok (s, [])) ∧
    (∀ (hasKey : Bool) (s : GWState) (now : Nat) (n : String),
        handleRaw hasKey s now (Raw.frame (TFrame.mark n)) = Except.ok (s, [])) ∧
    (∀ (hasKey : Bool) (s : GWState) (now : Nat) (sid : String),
        s.session = none →
        handleRaw hasKey s now (Raw.frame (TFrame.stop sid)) =
          Except.ok (s, [GAct.infoLog, GAct.wsClose])) ∧
    (∀ (hasKey : Bool) (s : GWState) (now : Nat) (e : String),
        handleRaw hasKey s now (Raw.frame (TFrame.unknownEvt e)) =
          Except.ok (s, [GAct.infoLog])) := by
  refine ⟨?_, ?_, ?_, ?_⟩
  · intro hasKey s now p h
    simp [handleRaw, h]
  · intro hasKey s now n
    rfl
  · intro hasKey s now sid h
    cases s with
    | mk sess sid2 =>
        cases h
        simp [handleRaw]
  · intro hasKey s now e
    rfl

/-- Witness for C9 amended at the initial connection state. -/
theorem claim9_witness :
    handleRaw true initGW 3 (Raw.frame (TFrame.media "qq")) = Except.ok (initGW, []) ∧
    handleRaw true initGW 3 (Raw.frame (TFrame.stop "MZ9")) =
      Except.ok (initGW, [GAct.infoLog, GAct.wsClose]) :=
  ⟨claim9_amended.1 true initGW 3 "qq" rfl,
   claim9_amended.2.2.1 true initGW 3 "MZ9" rfl⟩

/-- C8 counterexample: with the credential absent, the start-frame handler
propagates the "OPENAI_API_KEY missing" exception out of the ws message
callback (there is no try/catch around "await createRealtimeSession"), so
the run ends in a crash with NO ws.close action emitted — the Gateway
connection is NOT closed gracefully, refuting that clause of the claim. -/
theorem claim8_counterexample :
    handleRaw false initGW 0 (Raw.frame (TFrame.start "CA1" "MZ1")) =
      Except.error "OPENAI_API_KEY missing" ∧
    runGW false initGW [(0, Raw.frame (TFrame.start "CA1" "MZ1"))] =
      GWRes.crash "OPENAI_API_KEY missing" [] :=
  ⟨rfl, rfl⟩

/-- C8 amended: if the API key is absent when a call session is opened,
createRealtimeSession throws before any upstream socket is constructed, the
start handler makes no second attempt (the error escapes it directly), and
the call dies with the uncaught exception — but the Gateway connection is
not explicitly closed by the handler (no graceful close action is
emitted). -/
theorem claim8_amended :
    createRealtimeSession false = Except.error "OPENAI_API_KEY missing" ∧
    (∀ (s : GWState) (now : Nat) (c sid : String),
        handleRaw false s now (Raw.frame (TFrame.start c sid)) =
          Except.error "OPENAI_API_KEY missing") ∧
    (∀ (c sid : String),
        runGW false initGW [(0, Raw.frame (TFrame.start c sid))] =
          GWRes.crash "OPENAI_API_KEY missing" []) := by
  refine ⟨rfl, ?_, ?_⟩
  · intro s now c sid
    rfl
  · intro c sid
    rfl

/-- C6 counterexample: reach the state after rt open at t = 0 and one media
chunk at t = 10 (debounce deadline 310), then invoke close(): the debounce
timer is still pending afterwards — close() does NOT cancel it, refuting
the cancellation clause of the claim. -/
theorem claim6_counterexample :
    ((close (runAux initRT [(0, Input.rtOpen), (10, Input.media "aa")]).1).1).silenceTimer
      = some 310 := by
  rfl

/-- C6 amended: close() is idempotent and safe to invoke multiple times: it
flushes pending audio (a final commit, if any), requests closure of the
upstream socket, and a second invocation changes nothing and sends nothing
(cleanup happens exactly once, without error).  It does not cancel the
debounce timer, but a later firing of that timer after close() can never
emit a commit (the pending-audio flag was flushed, or the socket is not
open). -/
theorem claim6_amended :
    (∀ s : RTState, close (close s).1 = ((close s).1, [])) ∧
    (∀ s : RTState, (close s).1.closeRequested = true) ∧
    (∀ (s : RTState) (t : Nat), commitCount (fireDue (close s).1 t).2 = 0) := by
  refine ⟨?_, ?_, ?_⟩
  · intro s
    cases ho : s.isOpen <;> cases ha : s.hasAudioInBuffer <;>
      simp [close, commitNow, ho, ha]
  · intro s
    cases ho : s.isOpen <;> cases ha : s.hasAudioInBuffer <;>
      simp [close, commitNow, ho, ha]
  · intro s t
    cases ho : s.isOpen <;> cases ha : s.hasAudioInBuffer <;>
      cases hti : s.silenceTimer <;>
        simp [close, commitNow, fireDue, ho, ha, hti, commitCount] <;>
          split <;> simp [commitCount]

/-- C5 counterexample: after rt open at t = 0 and one media chunk at t = 10
the debounce deadline is 310 and no commit has been sent; invoking close()
at t = 20 — before the timer could possibly fire — sends a commit.  An
event other than the debounce timer elapse triggered an upstream commit,
refuting the claim that the timer firing is the sole trigger. -/
theorem claim5_counterexample :
    commitCount (runAux initRT [(0, Input.rtOpen), (10, Input.media "aa")]).2 = 0 ∧
    (runAux initRT [(0, Input.rtOpen), (10, Input.media "aa")]).1.silenceTimer = some 310 ∧
    commitCount (runAux initRT
      [(0, Input.rtOpen), (10, Input.media "aa"), (20, Input.closeCall)]).2 = 1 :=
  ⟨rfl, rfl, rfl⟩

/-- C5 amended: a commit can only be sent by the debounce timer firing
(fireDue) or by close() flushing pending audio: processing any other event
— rt open, rt close, or a media chunk — never emits a commit; and a
due timer with pending audio on an open socket does emit the
commit + response.create pair. -/
theorem claim5_amended :
    (∀ (s : RTState) (t : Nat) (i : Input), i ≠ Input.closeCall →
        commitCount (stepInput s t i).2 = 0) ∧
    (∀ (s : RTState) (t d : Nat), s.isOpen = true → s.hasAudioInBuffer = true →
        s.silenceTimer = some d → d < t →
        (fireDue s t).2 = [UpMsg.commitMsg, UpMsg.responseCreate]) := by
  constructor
  · intro s t i hi
    cases i with
    | rtOpen => simp [stepInput, commitCount]
    | rtClose => simp [stepInput, commitCount]
    | media b =>
        cases ho : s.isOpen <;> simp [stepInput, sendAudio, ho, commitCount]
    | closeCall => exact absurd rfl hi
  · intro s t d ho ha hti hd
    simp [fireDue, hti, hd, commitNow, ho, ha]

/-- Witness for C5 amended: a media event emits no commit; a due timer with
pending audio emits the pair. -/
theorem claim5_witness :
    commitCount (stepInput initRT 0 (Input.media "xx")).2 = 0 ∧
    (fireDue ⟨true, true, some 310, false⟩ 400).2 =
      [UpMsg.commitMsg, UpMsg.responseCreate] :=
  ⟨claim5_amended.1 initRT 0 (Input.media "xx") (by simp),
   claim5_amended.2 ⟨true, true, some 310, false⟩ 400 310 rfl rfl rfl (by omega)⟩

end NextWS

namespace NextWS

@[simp] lemma commitCount_nil : commitCount [] = 0 := rfl

@[simp] lemma appendCount_nil : appendCount [] = 0 := rfl

/-- commitNow never sends more than one commit per invocation. -/
lemma commitNow_le_one (s : RTState) : commitCount (commitNow s).2 ≤ 1 := by
  cases ho : s.isOpen <;> cases ha : s.hasAudioInBuffer <;>
    simp [commitNow, ho, ha, commitCount]

/-- Each commit sent by commitNow consumes the pending-audio flag. -/
lemma commitNow_bound (s : RTState) :
    commitCount (commitNow s).2 + cond (commitNow s).1.hasAudioInBuffer 1 0 ≤
      appendCount (commitNow s).2 + cond s.hasAudioInBuffer 1 0 := by
  cases ho : s.isOpen <;> cases ha : s.hasAudioInBuffer <;>
    simp [commitNow, ho, ha, commitCount, appendCount]

/-- Each commit sent by a timer firing consumes the pending-audio flag. -/
lemma fireDue_bound (s : RTState) (t : Nat) :
    commitCount (fireDue s t).2 + cond (fireDue s t).1.hasAudioInBuffer 1 0 ≤
      appendCount (fireDue s t).2 + cond s.hasAudioInBuffer 1 0 := by
  cases hti : s.silenceTimer with
  | none => simp [fireDue, hti]
  | some d =>
      by_cases hd : d < t
      · simpa [fireDue, hti, hd] using commitNow_bound { s with silenceTimer := none }
      · simp [fireDue, hti, hd]

/-- Each commit sent by close() consumes the pending-audio flag. -/
lemma close_bound (s : RTState) :
    commitCount (close s).2 + cond (close s).1.hasAudioInBuffer 1 0 ≤
      appendCount (close s).2 + cond s.hasAudioInBuffer 1 0 := by
  simpa [close] using commitNow_bound s

/-- Each commit sent while processing one input event consumes the
pending-audio flag (and media events are the only source of appends). -/
lemma stepInput_bound (s : RTState) (t : Nat) (i : Input) :
    commitCount (stepInput s t i).2 + cond (stepInput s t i).1.hasAudioInBuffer 1 0 ≤
      appendCount (stepInput s t i).2 + cond s.hasAudioInBuffer 1 0 := by
  cases i with
  | rtOpen => simp [stepInput, commitCount, appendCount]
  | rtClose => simp [stepInput, commitCount, appendCount]
  | media b =>
      cases ho : s.isOpen with
      | false => simp [stepInput, sendAudio, ho]
      | true =>
          cases ha : s.hasAudioInBuffer <;>
            simp [stepInput, sendAudio, scheduleCommit, ho, ha, commitCount, appendCount]
  | closeCall => simpa [stepInput] using close_bound s

/-- Each commit sent by the end-of-trace flush consumes the pending-audio
flag. -/
lemma finalFlush_bound (s : RTState) :
    commitCount (finalFlush s).2 + cond (finalFlush s).1.hasAudioInBuffer 1 0 ≤
      appendCount (finalFlush s).2 + cond s.hasAudioInBuffer 1 0 := by
  cases hti : s.silenceTimer with
  | none => simp [finalFlush, hti]
  | some d => simpa [finalFlush, hti] using commitNow_bound { s with silenceTimer := none }

/-- Trace invariant: over any event sequence, the number of commits sent
never exceeds the number of appends sent plus the initially pending flag. -/
lemma runAux_bound (evs : List (Nat × Input)) : ∀ s : RTState,
    commitCount (runAux s evs).2 + cond (runAux s evs).1.hasAudioInBuffer 1 0 ≤
      appendCount (runAux s evs).2 + cond s.hasAudioInBuffer 1 0 := by
  induction evs with
  | nil => intro s; simp [runAux]
  | cons ti rest ih =>
      intro s
      obtain ⟨t, i⟩ := ti
      have h1 := fireDue_bound s t
      have h2 := stepInput_bound (fireDue s t).1 t i
      have h3 := ih (stepInput (fireDue s t).1 t i).1
      simp only [runAux, commitCount, appendCount, List.countP_append] at h1 h2 h3 ⊢
      omega

end NextWS

namespace NextWS

/-- C1 counterexample: rt opens at t = 0, one media chunk is appended at
t = 100 (debounce deadline 400), and the upstream socket closes at t = 150.
When the debounce timer then elapses (at t = 500 here), hasPendingAudio is
still true, yet NOTHING is sent and the flag is NOT cleared — because
commitNow also requires the socket to be open.  This refutes the clause
that whenever the timer elapses with hasPendingAudio true, the flag is
cleared and the commit + response.create pair is sent. -/
theorem claim1_counterexample :
    (runAux initRT
        [(0, Input.rtOpen), (100, Input.media "aa"), (150, Input.rtClose)]).1.hasAudioInBuffer
      = true ∧
    (fireDue (runAux initRT
        [(0, Input.rtOpen), (100, Input.media "aa"), (150, Input.rtClose)]).1 500).2 = [] ∧
    (fireDue (runAux initRT
        [(0, Input.rtOpen), (100, Input.media "aa"), (150, Input.rtClose)]).1 500).1.hasAudioInBuffer
      = true :=
  ⟨rfl, rfl, rfl⟩

/-- C1 amended: the debounce elapse (commitNow) is a no-op when
hasPendingAudio is false; when hasPendingAudio is true AND the upstream
socket is still open, it clears the flag and sends the
input_audio_buffer.commit followed by response.create as one ordered pair;
and over any event trace no spurious commit exists: the number of commits
sent upstream never exceeds the number of appends. -/
theorem claim1_amended :
    (∀ s : RTState, s.hasAudioInBuffer = false → commitNow s = (s, [])) ∧
    (∀ s : RTState, s.isOpen = true → s.hasAudioInBuffer = true →
        commitNow s = ({ s with hasAudioInBuffer := false },
                       [UpMsg.commitMsg, UpMsg.responseCreate])) ∧
    (∀ evs : List (Nat × Input),
        commitCount (run initRT evs).2 ≤ appendCount (run initRT evs).2) := by
  refine ⟨?_, ?_, ?_⟩
  · intro s h
    simp [commitNow, h]
  · intro s ho ha
    simp [commitNow, ho, ha]
  · intro evs
    have h1 := runAux_bound evs initRT
    have h2 := finalFlush_bound (runAux initRT evs).1
    have h0 : cond initRT.hasAudioInBuffer 1 0 = 0 := rfl
    simp only [run, commitCount, appendCount, List.countP_append] at h1 h2 ⊢
    omega

/-- Witness for C1 amended: elapse with nothing pending sends nothing;
elapse with pending audio on an open socket sends the ordered pair and
clears the flag. -/
theorem claim1_witness :
    commitNow ⟨true, false, none, false⟩ = (⟨true, false, none, false⟩, []) ∧
    commitNow ⟨true, true, none, false⟩ =
      (⟨true, false, none, false⟩, [UpMsg.commitMsg, UpMsg.responseCreate]) :=
  ⟨claim1_amended.1 ⟨true, false, none, false⟩ rfl,
   claim1_amended.2.1 ⟨true, true, none, false⟩ rfl rfl⟩

end NextWS

namespace NextWS

@[simp] lemma commitCount_append (l1 l2 : List UpMsg) :
    commitCount (l1 ++ l2) = commitCount l1 + commitCount l2 := by
  simp [commitCount, List.countP_append]

@[simp] lemma commitCount_open_msgs :
    commitCount [UpMsg.sessionUpdate, UpMsg.itemCreate, UpMsg.responseCreate] = 0 := rfl

@[simp] lemma commitCount_single_append (b64 : String) :
    commitCount [UpMsg.append b64] = 0 := rfl

/-- The end-of-trace flush sends at most one commit. -/
lemma finalFlush_le_one (s : RTState) : commitCount (finalFlush s).2 ≤ 1 := by
  cases hti : s.silenceTimer with
  | none => simp [finalFlush, hti]
  | some d => simpa [finalFlush, hti] using commitNow_le_one { s with silenceTimer := none }

/-- The end-of-trace flush sends exactly one commit when a timer is pending
on an open socket with pending audio. -/
lemma finalFlush_commit (s : RTState) (d : Nat) (ho : s.isOpen = true)
    (ha : s.hasAudioInBuffer = true) (hti : s.silenceTimer = some d) :
    commitCount (finalFlush s).2 = 1 := by
  simp [finalFlush, hti, commitNow, ho, ha, commitCount]

/-- A burst of media frames in which each frame arrives within the debounce
window of the previous one reschedules the timer every time and never lets
it fire: no commit is sent during the burst, the socket stays open and some
deadline is still pending afterwards. -/
lemma burst_chained (frames : List (Nat × String)) : ∀ (s : RTState) (prev : Nat),
    s.isOpen = true → s.silenceTimer = some (prev + 300) → chained prev frames →
    commitCount (runAux s (burst frames)).2 = 0 ∧
    (runAux s (burst frames)).1.isOpen = true ∧
    ∃ q, (runAux s (burst frames)).1.silenceTimer = some (q + 300) := by
  induction frames with
  | nil =>
      intro s prev ho hti _
      exact ⟨by simp [burst, runAux], by simp [burst, runAux, ho],
             ⟨prev, by simp [burst, runAux, hti]⟩⟩
  | cons f rest ih =>
      obtain ⟨t, b⟩ := f
      intro s prev ho hti hch
      obtain ⟨h1, h2, hch2⟩ := hch
      have hnf : fireDue s t = (s, []) := by
        simp [fireDue, hti, Nat.not_lt.mpr h2]
      have hsend : stepInput s t (Input.media b) =
          ({ s with hasAudioInBuffer := true, silenceTimer := some (t + 300) },
           [UpMsg.append b]) := by
        simp [stepInput, sendAudio, scheduleCommit, ho]
      have ihr := ih { s with hasAudioInBuffer := true, silenceTimer := some (t + 300) }
        t (by simp [ho]) (by simp) hch2
      have hrw : runAux s (burst ((t, b) :: rest)) =
          ((runAux { s with hasAudioInBuffer := true, silenceTimer := some (t + 300) }
              (burst rest)).1,
           [] ++ ([UpMsg.append b] ++
            (runAux { s with hasAudioInBuffer := true, silenceTimer := some (t + 300) }
              (burst rest)).2)) := by
        simp only [burst, List.map_cons]
        simp only [runAux, hnf, hsend]
        simp [burst]
      refine ⟨?_, ?_, ?_⟩
      · rw [hrw]
        simp only [commitCount, List.countP_append, List.nil_append, List.countP_cons]
        have := ihr.1
        simp only [commitCount] at this
        simp [this]
      · rw [hrw]
        exact ihr.2.1
      · rw [hrw]
        exact ihr.2.2

/-- A sequence of media frames separated by gaps strictly exceeding the
debounce window lets the pending timer fire before each frame: each frame
of the sequence is preceded by exactly one commit, and afterwards the
socket is open with audio pending and a deadline scheduled. -/
lemma burst_separated (frames : List (Nat × String)) : ∀ (s : RTState) (prev : Nat),
    s.isOpen = true → s.hasAudioInBuffer = true →
    s.silenceTimer = some (prev + 300) → separated prev frames →
    commitCount (runAux s (burst frames)).2 = frames.length ∧
    (runAux s (burst frames)).1.isOpen = true ∧
    (runAux s (burst frames)).1.hasAudioInBuffer = true ∧
    ∃ q, (runAux s (burst frames)).1.silenceTimer = some (q + 300) := by
  induction frames with
  | nil =>
      intro s prev ho ha hti _
      exact ⟨by simp [burst, runAux], by simp [burst, runAux, ho],
             by simp [burst, runAux, ha], ⟨prev, by simp [burst, runAux, hti]⟩⟩
  | cons f rest ih =>
      obtain ⟨t, b⟩ := f
      intro s prev ho ha hti hsep
      obtain ⟨h1, hsep2⟩ := hsep
      have hf : fireDue s t =
          ({ s with silenceTimer := none, hasAudioInBuffer := false },
           [UpMsg.commitMsg, UpMsg.responseCreate]) := by
        simp [fireDue, hti, h1, commitNow, ho, ha]
      have hsend : stepInput { s with silenceTimer := none, hasAudioInBuffer := false }
            t (Input.media b) =
          ({ s with hasAudioInBuffer := true, silenceTimer := some (t + 300) },
           [UpMsg.append b]) := by
        simp [stepInput, sendAudio, scheduleCommit, ho]
      have ihr := ih { s with hasAudioInBuffer := true, silenceTimer := some (t + 300) }
        t (by simp [ho]) (by simp) (by simp) hsep2
      have hrw : runAux s (burst ((t, b) :: rest)) =
          ((runAux { s with hasAudioInBuffer := true, silenceTimer := some (t + 300) }
              (burst rest)).1,
           [UpMsg.commitMsg, UpMsg.responseCreate] ++
            ([UpMsg.append b] ++
             (runAux { s with hasAudioInBuffer := true, silenceTimer := some (t + 300) }
               (burst rest)).2)) := by
        simp only [burst, List.map_cons]
        simp only [runAux, hf, hsend]
        simp [burst]
      refine ⟨?_, ?_, ?_, ?_⟩
      · rw [hrw]
        simp only [commitCount, List.countP_append, List.countP_cons, List.countP_nil]
        have := ihr.1
        simp only [commitCount] at this
        simp [this, List.length_cons]
        omega
      · rw [hrw]
        exact ihr.2.1
      · rw [hrw]
        exact ihr.2.2.1
      · rw [hrw]
        exact ihr.2.2.2

end NextWS

namespace NextWS

/-- C3: with the upstream socket open, appendAudio forwards the chunk
upstream immediately (the append message), sets hasPendingAudio, and
replaces the single debounce timer with a deadline exactly 300 ms from now
(never stacking a second timer — the field holds one deadline).
Consequently, after rt open and a first media frame, any further frames
each arriving within the debounce window of the previous one produce at
most one commit in the whole run, while frames separated by gaps exceeding
the window each start a new debounce cycle: every such frame yields one
commit, for a total of one commit per frame. -/
theorem claim3_confirmed :
    (∀ (s : RTState) (now : Nat) (b64 : String), s.isOpen = true →
        sendAudio s now b64 =
          ({ s with hasAudioInBuffer := true, silenceTimer := some (now + 300) },
           [UpMsg.append b64])) ∧
    (∀ (t0 t1 : Nat) (b1 : String) (frames : List (Nat × String)),
        chained t1 frames →
        commitCount (run initRT
          ((t0, Input.rtOpen) :: (t1, Input.media b1) :: burst frames)).2 ≤ 1) ∧
    (∀ (t0 t1 : Nat) (b1 : String) (frames : List (Nat × String)),
        separated t1 frames →
        commitCount (run initRT
          ((t0, Input.rtOpen) :: (t1, Input.media b1) :: burst frames)).2
          = frames.length + 1) := by
  refine ⟨?_, ?_, ?_⟩
  · intro s now b64 ho
    simp [sendAudio, scheduleCommit, ho]
  · intro t0 t1 b1 frames hch
    have hrw : runAux initRT ((t0, Input.rtOpen) :: (t1, Input.media b1) :: burst frames) =
        ((runAux (⟨true, true, some (t1 + 300), false⟩ : RTState) (burst frames)).1,
         [] ++ [UpMsg.sessionUpdate, UpMsg.itemCreate, UpMsg.responseCreate] ++
          ([] ++ [UpMsg.append b1] ++
           (runAux (⟨true, true, some (t1 + 300), false⟩ : RTState) (burst frames)).2)) := rfl
    have hb := burst_chained frames ⟨true, true, some (t1 + 300), false⟩ t1 rfl rfl hch
    have hsplit : commitCount (run initRT
          ((t0, Input.rtOpen) :: (t1, Input.media b1) :: burst frames)).2 =
        commitCount (runAux initRT
          ((t0, Input.rtOpen) :: (t1, Input.media b1) :: burst frames)).2 +
        commitCount (finalFlush (runAux initRT
          ((t0, Input.rtOpen) :: (t1, Input.media b1) :: burst frames)).1).2 := by
      simp [run, commitCount, List.countP_append]
    rw [hsplit, hrw]
    have h1 := hb.1
    have h2 := finalFlush_le_one
      (runAux (⟨true, true, some (t1 + 300), false⟩ : RTState) (burst frames)).1
    simp only [commitCount_append, commitCount_open_msgs, commitCount_single_append,
      List.nil_append]
    omega
  · intro t0 t1 b1 frames hsep
    have hrw : runAux initRT ((t0, Input.rtOpen) :: (t1, Input.media b1) :: burst frames) =
        ((runAux (⟨true, true, some (t1 + 300), false⟩ : RTState) (burst frames)).1,
         [] ++ [UpMsg.sessionUpdate, UpMsg.itemCreate, UpMsg.responseCreate] ++
          ([] ++ [UpMsg.append b1] ++
           (runAux (⟨true, true, some (t1 + 300), false⟩ : RTState) (burst frames)).2)) := rfl
    have hb := burst_separated frames ⟨true, true, some (t1 + 300), false⟩ t1 rfl rfl rfl hsep
    obtain ⟨q, hq⟩ := hb.2.2.2
    have hsplit : commitCount (run initRT
          ((t0, Input.rtOpen) :: (t1, Input.media b1) :: burst frames)).2 =
        commitCount (runAux initRT
          ((t0, Input.rtOpen) :: (t1, Input.media b1) :: burst frames)).2 +
        commitCount (finalFlush (runAux initRT
          ((t0, Input.rtOpen) :: (t1, Input.media b1) :: burst frames)).1).2 := by
      simp [run, commitCount, List.countP_append]
    rw [hsplit, hrw]
    have h1 := hb.1
    have h2 := finalFlush_commit
      (runAux (⟨true, true, some (t1 + 300), false⟩ : RTState) (burst frames)).1
      (q + 300) hb.2.1 hb.2.2.1 hq
    simp only [commitCount_append, commitCount_open_msgs, commitCount_single_append,
      List.nil_append]
    omega

/-- Witness for C3: appendAudio on an open socket at t = 7 schedules
deadline 307; three frames 100 then 250 ms apart coalesce into one commit;
two frames 400 ms apart produce two commits. -/
theorem claim3_witness :
    sendAudio ⟨true, false, none, false⟩ 7 "aa" =
      (⟨true, true, some 307, false⟩, [UpMsg.append "aa"]) ∧
    commitCount (run initRT
      ((0, Input.rtOpen) :: (100, Input.media "a") :: burst [(200, "b"), (450, "c")])).2 ≤ 1 ∧
    commitCount (run initRT
      ((0, Input.rtOpen) :: (100, Input.media "a") :: burst [(500, "b")])).2 = 1 + 1 :=
  ⟨claim3_confirmed.1 ⟨true, false, none, false⟩ 7 "aa" rfl,
   claim3_confirmed.2.1 0 100 "a" [(200, "b"), (450, "c")] (by simp [chained]),
   claim3_confirmed.2.2 0 100 "a" [(500, "b")] (by simp [separated])⟩

end NextWS
